import Mathlib

/-
Verification development for the OpenKeeper session engine
(backend/app: actions.py, visibility.py, keeper_validation.py,
session.py, models.py).

The Python code is shallowly embedded: dictionaries become string-keyed
association lists, mutation becomes explicit state passing, exceptions
become Except values, and the process-wide random source becomes an
explicit stream of naturals (each randint(a, b) draw consumes one stream
element and maps it into [a, b], so quantifying over streams quantifies
over all possible draws).
-/

namespace OpenKeeper

/-! ### Python-dict-like association lists -/

/-- Lookup of a key in a string-keyed association list (Python dict.get). -/
def dlookup {α : Type} (d : List (String × α)) (k : String) : Option α :=
  match d with
  | [] => none
  | (k2, v) :: rest => if k2 = k then some v else dlookup rest k

/-- Lookup with a default (Python dict.get(k, default)). -/
def dget {α : Type} (d : List (String × α)) (k : String) (dflt : α) : α :=
  (dlookup d k).getD dflt

/-- Key membership (Python "k in d"). -/
def dmem {α : Type} (d : List (String × α)) (k : String) : Bool :=
  (dlookup d k).isSome

/-- Assignment d[k] = v: replace in place if the key exists, else append
(mirrors CPython insertion-order semantics). -/
def dset {α : Type} (d : List (String × α)) (k : String) (v : α) : List (String × α) :=
  match d with
  | [] => [(k, v)]
  | (k2, v2) :: rest => if k2 = k then (k, v) :: rest else (k2, v2) :: dset rest k v

theorem dlookup_dset_self {α : Type} (d : List (String × α)) (k : String) (v : α) :
    dlookup (dset d k v) k = some v := by
  induction d with
  | nil => simp [dset, dlookup]
  | cons h t ih =>
    obtain ⟨k2, v2⟩ := h
    by_cases hk : k2 = k
    · simp [dset, dlookup, hk]
    · simp [dset, dlookup, hk, ih]

theorem dset_eq_self {α : Type} (d : List (String × α)) (k : String) (v : α)
    (h : dlookup d k = some v) : dset d k v = d := by
  induction d with
  | nil => simp [dlookup] at h
  | cons hd t ih =>
    obtain ⟨k2, v2⟩ := hd
    by_cases hk : k2 = k
    · subst hk
      simp [dlookup] at h
      simp [dset, h]
    · simp [dlookup, hk] at h
      simp [dset, hk, ih h]

/-! ### Random source

A deterministic model of Python random.randint: a stream of naturals;
randint(lo, hi) maps the next element into [lo, hi] by modulus. Every
value in [lo, hi] is reachable, and any draw sequence corresponds to
some stream, so universally quantifying over the stream covers all
possible rolls. -/

structure Rng where
  stream : List Nat
deriving DecidableEq

/-- One uniform draw in [lo, hi] (Python random.randint(lo, hi) with
lo ≤ hi; an exhausted stream yields lo). -/
def Rng.next (r : Rng) (lo hi : Nat) : Nat × Rng :=
  match r.stream with
  | [] => (lo, ⟨[]⟩)
  | h :: t => (lo + h % (hi - lo + 1), ⟨t⟩)

theorem Rng.next_le (r : Rng) (lo hi : Nat) (hlo : lo ≤ hi) :
    lo ≤ (r.next lo hi).1 ∧ (r.next lo hi).1 ≤ hi := by
  unfold Rng.next
  match r with
  | ⟨[]⟩ => simp [hlo]
  | ⟨h :: t⟩ =>
    simp only
    constructor
    · omega
    · have : h % (hi - lo + 1) < hi - lo + 1 := Nat.mod_lt _ (by omega)
      omega

/-- A list of n independent draws in [lo, hi]. -/
def drawList (n : Nat) (lo hi : Nat) (r : Rng) : List Nat × Rng :=
  match n with
  | 0 => ([], r)
  | Nat.succ m =>
    let (v, r2) := r.next lo hi
    let (vs, r3) := drawList m lo hi r2
    (v :: vs, r3)

theorem drawList_length (n lo hi : Nat) (r : Rng) :
    (drawList n lo hi r).1.length = n := by
  induction n generalizing r with
  | zero => simp [drawList]
  | succ m ih => simp [drawList, ih]

theorem drawList_mem_le (n lo hi : Nat) (r : Rng) (hlo : lo ≤ hi) :
    ∀ x ∈ (drawList n lo hi r).1, lo ≤ x ∧ x ≤ hi := by
  induction n generalizing r with
  | zero => simp [drawList]
  | succ m ih =>
    intro x hx
    simp only [drawList, List.mem_cons] at hx
    rcases hx with hx | hx
    · subst hx
      exact Rng.next_le r lo hi hlo
    · exact ih _ x hx

/-! ### Dice and rules resolver (actions.py) -/

/-- Success-level classification (actions.py, coc_success_level). -/
def coc_success_level (roll : Int) (target : Int) : String :=
  if roll = 1 then "critical"
  else if target < 50 ∧ roll ≥ 96 then "fumble"
  else if target ≥ 50 ∧ roll = 100 then "fumble"
  else if roll ≤ max 1 (target / 5) then "extreme_success"
  else if roll ≤ max 1 (target / 2) then "hard_success"
  else if roll ≤ target then "regular_success"
  else "failure"

/-- Minimum of a nonempty list (Python builtin min; 0 on empty, never hit). -/
def listMin : List Nat → Nat
  | [] => 0
  | h :: t => t.foldl Nat.min h

/-- Maximum of a nonempty list (Python builtin max; 0 on empty, never hit). -/
def listMax : List Nat → Nat
  | [] => 0
  | h :: t => t.foldl Nat.max h

theorem foldl_min_le (t : List Nat) (h : Nat) : t.foldl Nat.min h ≤ h := by
  induction t generalizing h with
  | nil => simp
  | cons a t2 ih =>
    simp only [List.foldl_cons]
    exact le_trans (ih (Nat.min h a)) (Nat.min_le_left h a)

theorem foldl_max_le (t : List Nat) (h b : Nat) (hh : h ≤ b)
    (ht : ∀ x ∈ t, x ≤ b) : t.foldl Nat.max h ≤ b := by
  induction t generalizing h with
  | nil => simpa using hh
  | cons a t2 ih =>
    simp only [List.foldl_cons]
    refine ih (Nat.max h a) (Nat.max_le.mpr ⟨hh, ht a (by simp)⟩) ?_
    intro x hx
    exact ht x (by simp [hx])

theorem listMin_le_nine (l : List Nat) (hne : l ≠ [])
    (hb : ∀ x ∈ l, x ≤ 9) : listMin l ≤ 9 := by
  match l with
  | [] => exact absurd rfl hne
  | h :: t =>
    simp only [listMin]
    exact le_trans (foldl_min_le t h) (hb h (by simp))

theorem listMax_le_nine (l : List Nat) (hb : ∀ x ∈ l, x ≤ 9) : listMax l ≤ 9 := by
  match l with
  | [] => simp [listMax]
  | h :: t =>
    simp only [listMax]
    refine foldl_max_le t h 9 (hb h (by simp)) ?_
    intro x hx
    exact hb x (by simp [hx])

/-- Result payload of a percentile check (actions.py, roll_coc_check).
The difficulty and skill_name slots are filled in later by the
dispatcher, mirroring the dict writes in dispatch_action. -/
structure CocResult where
  unit : Nat
  tens : Nat
  tens_rolls : List Nat
  bonus_dice : Int
  penalty_dice : Int
  target : Int
  total : Int
  success_level : String
  difficulty : Option String := none
  skill_name : Option String := none
deriving DecidableEq

/-- The chosen tens digit: the minimum of the rolled candidates when
the net bonus is nonnegative, the maximum otherwise. -/
def chooseTens (net : Int) (tens_rolls : List Nat) : Nat :=
  if net ≥ 0 then listMin tens_rolls else listMax tens_rolls

/-- The composed total with the 00-maps-to-100 rule. -/
def composeTotal (chosen_tens unit : Nat) : Int :=
  if chosen_tens * 10 + unit = 0 then 100 else ((chosen_tens * 10 + unit : Nat) : Int)

/-- Percentile check with bonus/penalty dice (actions.py, roll_coc_check). -/
def roll_coc_check (target bonus_dice penalty_dice : Int) (r : Rng) :
    CocResult × Rng :=
  let bonus := max 0 bonus_dice
  let penalty := max 0 penalty_dice
  let net := bonus - penalty
  let unitDraw := r.next 0 9
  let tensDraw := drawList (1 + net.natAbs) 0 9 unitDraw.2
  let chosen_tens := chooseTens net tensDraw.1
  let total := composeTotal chosen_tens unitDraw.1
  ({ unit := unitDraw.1, tens := chosen_tens, tens_rolls := tensDraw.1,
     bonus_dice := bonus, penalty_dice := penalty, target := target,
     total := total, success_level := coc_success_level total target }, tensDraw.2)

/-- Numeric rank of a success level (actions.py, success_rank); any
unknown string gets the dict-get default 1. -/
def success_rank (level : String) : Int :=
  if level = "critical" then 5
  else if level = "extreme_success" then 4
  else if level = "hard_success" then 3
  else if level = "regular_success" then 2
  else if level = "failure" then 1
  else if level = "fumble" then 0
  else 1

/-- The fields of a check payload that the opposed comparison reads
(actions.py, compare_opposed reads success_level, target, total). -/
structure OpposedPayload where
  success_level : String
  target : Int
  total : Int
deriving DecidableEq

/-- Opposed-check winner (actions.py, compare_opposed). -/
def compare_opposed (a b : OpposedPayload) : String :=
  if success_rank a.success_level > success_rank b.success_level then "attacker"
  else if success_rank b.success_level > success_rank a.success_level then "defender"
  else if a.target > b.target then "attacker"
  else if b.target > a.target then "defender"
  else if a.total > b.total then "attacker"
  else if b.total > a.total then "defender"
  else "tie"

/-! ### Dice-expression parsing (actions.py, DICE_RE and
roll_dice_expression). The regex has pattern digits, letter d, digits,
optional sign-and-digits, applied with re.search: it matches at the
leftmost position where the pattern fits, anywhere inside the cleaned
string, with greedy digit runs. -/

/-- Split off the maximal leading run of ASCII digits. -/
def spanDigits : List Char → List Char × List Char
  | [] => ([], [])
  | c :: rest =>
    if c.isDigit then
      let (d, r) := spanDigits rest
      (c :: d, r)
    else ([], c :: rest)

/-- Numeric value of a digit run (Python int on the captured group). -/
def digitsVal (ds : List Char) : Nat :=
  ds.foldl (fun acc c => acc * 10 + (c.toNat - 48)) 0

/-- Python str.startswith, modeled over the character list so that it
reduces in the kernel. -/
def strStartsWith (s pre : String) : Bool :=
  pre.toList.isPrefixOf s.toList

/-- Python slicing s[n:], modeled over the character list. -/
def strDrop (s : String) (n : Nat) : String :=
  ⟨s.toList.drop n⟩

def isDChar (c : Char) : Bool := c = 'd' || c = 'D'

def isSignChar (c : Char) : Bool := c = '+' || c = '-'

/-- The optional sign-and-digits modifier group: matches greedily when
present, contributes 0 otherwise. -/
def matchModifier : List Char → Int
  | [] => 0
  | s :: r4 =>
    if isSignChar s then
      let (d3, _) := spanDigits r4
      if d3 = [] then 0
      else if s = '-' then -(digitsVal d3 : Int)
      else (digitsVal d3 : Int)
    else 0

/-- The pattern tail after the count digits: the letter d, a nonempty
digit run for the sides, and the optional modifier. Returns
(sides, modifier). -/
def matchAfterDigits : List Char → Option (Nat × Int)
  | [] => none
  | c :: r2 =>
    if isDChar c then
      let (d2, r3) := spanDigits r2
      if d2 = [] then none
      else some (digitsVal d2, matchModifier r3)
    else none

/-- Match the dice pattern at the head of the list, returning
(count, sides, modifier). Greedy digit runs need no backtracking for
this pattern: a digit run can never end before a non-digit. -/
def matchDiceAt (cs : List Char) : Option (Nat × Nat × Int) :=
  let (d1, r1) := spanDigits cs
  if d1 = [] then none
  else
    match matchAfterDigits r1 with
    | none => none
    | some (sides, m) => some (digitsVal d1, sides, m)

/-- Leftmost match of the dice pattern (re.search). -/
def findDice : List Char → Option (Nat × Nat × Int)
  | [] => none
  | c :: rest =>
    match matchDiceAt (c :: rest) with
    | some res => some res
    | none => findDice rest

/-- Errors raised by roll_dice_expression: the descriptive ValueError
for a non-matching string, and the ValueError random.randint raises on
an empty range (sides = 0 with at least one die). -/
inductive RollError where
  | invalidExpression
  | emptyRange
deriving DecidableEq

/-- Roll count dice, each uniform in 1..sides (the list comprehension
over random.randint(1, sides); randint raises on an empty range). -/
def rollDice (count sides : Nat) (r : Rng) : Except RollError (List Nat × Rng) :=
  match count with
  | 0 => .ok ([], r)
  | Nat.succ m =>
    if sides = 0 then .error .emptyRange
    else
      let (v, r2) := r.next 1 sides
      match rollDice m sides r2 with
      | .ok (vs, r3) => .ok (v :: vs, r3)
      | .error e => .error e

structure DiceExprResult where
  expression : String
  rolls : List Nat
  modifier : Int
  total : Int
deriving DecidableEq

/-- Free dice expression roller (actions.py, roll_dice_expression):
remove spaces, search for the pattern, roll, sum plus modifier. -/
def roll_dice_expression (expr : String) (r : Rng) :
    Except RollError (DiceExprResult × Rng) :=
  let cleaned := expr.toList.filter (fun c => c ≠ Char.ofNat 32)
  match findDice cleaned with
  | none => .error .invalidExpression
  | some (count, sides, modifier) =>
    match rollDice count sides r with
    | .error e => .error e
    | .ok (rolls, r2) =>
      .ok ({ expression := expr, rolls := rolls, modifier := modifier,
             total := (rolls.sum : Int) + modifier }, r2)

/-- Modelled from the spec claim wording for comparison: the input,
with spaces removed, is EXACTLY of the form count d sides with an
optional sign-and-modifier suffix (a full match, not a substring
search). -/
def specDiceFormat (s : String) : Bool :=
  let cs := s.toList.filter (fun c => c ≠ Char.ofNat 32)
  let (d1, r1) := spanDigits cs
  if d1 = [] then false
  else
    match r1 with
    | [] => false
    | c :: r2 =>
      if isDChar c then
        let (d2, r3) := spanDigits r2
        if d2 = [] then false
        else
          match r3 with
          | [] => true
          | sgn :: r4 =>
            if isSignChar sgn then
              let (d3, r5) := spanDigits r4
              (!d3.isEmpty) && r5.isEmpty
            else false
      else false

/-- The cleaned string contains three consecutive characters digit,
letter d (either case), digit. This is exactly the acceptance
condition of the searched regex, proved below. -/
def containsDdd : List Char → Bool
  | a :: b :: c :: rest =>
    (a.isDigit && isDChar b && c.isDigit) || containsDdd (b :: c :: rest)
  | _ => false

/-! ### World state and action parameters -/

/-- A normalized item/clue finding (actions.py, normalize_finding
output shape). -/
structure Finding where
  description : String
  reveal : Option String := none
  effect : Option String := none
deriving DecidableEq

/-- One player record inside the world-state players mapping. The
stats, attributes and skills dictionaries keep Python dict semantics
as association lists. -/
structure Player where
  player_id : Option String := none
  name : Option String := none
  color : Option String := none
  stats : List (String × Int) := []
  attributes : List (String × Int) := []
  skills : List (String × Int) := []
  statuses : List String := []
  items : List Finding := []
  clues : List Finding := []
deriving DecidableEq

/-- The mutable world state (session.state.current_state): the players
mapping plus the phase and ending_forced markers the orchestrator
reads. -/
structure WorldState where
  players : List (String × Player) := []
  phase : Option String := none
  ending_forced : Bool := false
deriving DecidableEq

/-- Raw finding input as accepted by normalize_finding: a bare string,
a mapping with the recognized keys, or anything else. -/
structure RawFields where
  description : Option String := none
  name : Option String := none
  clue_id : Option String := none
  item_id : Option String := none
  id : Option String := none
  reveal : Option String := none
  effect : Option String := none
deriving DecidableEq

inductive RawEntry where
  | str (s : String)
  | dict (f : RawFields)
  | other
deriving DecidableEq

/-- Python truthy-or chaining for strings: an empty string falls
through to the alternative. -/
def orStr (a : Option String) (b : String) : String :=
  match a with
  | some s => if s = "" then b else s
  | none => b

/-- actions.py, normalize_finding. -/
def normalize_finding (raw : RawEntry) : Finding :=
  match raw with
  | .str s => { description := s }
  | .dict f =>
    let description :=
      orStr f.description (orStr f.name (orStr f.clue_id (orStr f.item_id (orStr f.id ""))))
    let base : Finding := { description := description }
    let base2 :=
      match f.reveal with
      | some s => if s = "" then base else { base with reveal := some s }
      | none => base
    match f.effect with
    | some s => if s = "" then base2 else { base2 with effect := some s }
    | none => base2
  | .other => { description := "" }

/-- Opposed-check sub-spec dictionaries (dispatch_action, attacker and
defender parameter mappings). -/
structure OpposeSpec where
  target : Option Int := none
  bonus_dice : Option Int := none
  penalty_dice : Option Int := none
  difficulty : Option String := none
  skill_name : Option String := none
deriving DecidableEq

/-- The open parameter mapping of an ActionCall, with one typed slot
per key the dispatcher and validator read. A missing key is none. The
Python key named attribute is spelled attr here (reserved word). -/
structure Params where
  player_id : Option String := none
  amount : Option Int := none
  source : Option String := none
  attr : Option String := none
  delta : Option Int := none
  status : Option String := none
  target : Option Int := none
  bonus_dice : Option Int := none
  penalty_dice : Option Int := none
  difficulty : Option String := none
  reason : Option String := none
  skill_name : Option String := none
  actor_id : Option String := none
  dice_expression : Option String := none
  attacker : Option OpposeSpec := none
  defender : Option OpposeSpec := none
  item : Option RawEntry := none
  items : Option (List RawEntry) := none
  clue : Option RawEntry := none
  clues : Option (List RawEntry) := none
  description : Option String := none
  name : Option String := none
  reveal : Option String := none
  effect : Option String := none
  details : Option String := none
  ending_id : Option String := none
deriving DecidableEq

/-- actions.py, extract_entries: gather the pluralized list, the
singular entry, or the bare top-level fields; normalize and drop
entries with an empty description. -/
def extract_entries (singular : Option RawEntry) (plural : Option (List RawEntry))
    (p : Params) : List Finding :=
  let entries : List RawEntry :=
    (match plural with | some l => l | none => []) ++
    (match singular with | some e => [e] | none => [])
  let entries2 :=
    if entries = [] ∧
        (p.description.isSome ∨ p.name.isSome ∨ p.reveal.isSome ∨
         p.effect.isSome ∨ p.details.isSome) then
      [RawEntry.dict { description := p.description, name := p.name,
                       reveal := p.reveal, effect := p.effect }]
    else entries
  (entries2.map normalize_finding).filter (fun f => f.description ≠ "")

/-- actions.py, merge_findings: append incoming entries whose
description is nonempty and not already present. -/
def merge_findings (existing incoming : List Finding) : List Finding :=
  match incoming with
  | [] => existing
  | e :: rest =>
    if e.description = "" ∨ existing.any (fun x => x.description = e.description) then
      merge_findings existing rest
    else
      merge_findings (existing ++ [e]) rest

/-! ### Action dispatcher (actions.py, dispatch_action) -/

/-- Errors the dispatcher can raise, named after the taxonomy of the
specification; unknownAction is the ValueError for an unsupported
function, playerNotFound and unknownAttribute are the KeyErrors of
get_player and update_player_attribute, missingParameter is the
KeyError of a required params subscript. -/
inductive ActionError where
  | unknownAction (fn : String)
  | playerNotFound (pid : String)
  | unknownAttribute (a : String)
  | missingParameter (nm : String)
  | diceError (e : RollError)
deriving DecidableEq

/-- The state diff returned by one dispatcher application, keyed by the
affected player where applicable (the nested Python dict flattened
into a tagged record). -/
inductive StateDiff where
  | damage (pid : String) (hp hp_max : Int) (amount : Int) (source : Option String)
  | sanity (pid : String) (san san_max : Int) (amount : Int) (source : Option String)
  | skillUpdate (pid : String) (skill : String) (value : Int)
  | attrUpdate (pid : String) (a : String) (value : Int)
  | statUpdate (pid : String) (stat : String) (value : Int)
  | statusList (pid : String) (statuses : List String)
  | itemList (pid : String) (items : List Finding)
  | clueList (pid : String) (clues : List Finding)
  | diceRoll (result : CocResult) (is_success : Bool) (reason : Option String)
      (actor_id : Option String) (skill_name : Option String)
  | diceExpr (result : DiceExprResult) (reason : Option String) (actor_id : Option String)
  | opposed (attacker defender : CocResult) (winner : String)
      (reason : Option String) (actor_id : Option String)
deriving DecidableEq

/-- actions.py, get_player. -/
def get_player (st : WorldState) (pid : String) : Except ActionError Player :=
  match dlookup st.players pid with
  | some p => .ok p
  | none => .error (.playerNotFound pid)

/-- Write back one player record into the world state. -/
def setPlayer (st : WorldState) (pid : String) (p : Player) : WorldState :=
  { st with players := dset st.players pid p }

/-- actions.py, apply_damage. -/
def apply_damage (st : WorldState) (p : Params) :
    Except ActionError (WorldState × StateDiff) :=
  match p.player_id with
  | none => .error (.missingParameter "player_id")
  | some pid =>
    match get_player st pid with
    | .error e => .error e
    | .ok player =>
      match p.amount with
      | none => .error (.missingParameter "amount")
      | some amount =>
        let stats := player.stats
        let current := dget stats "hp" 0
        let hp_max := dget stats "hp_max" current
        let newHp := max 0 (min hp_max (current - amount))
        let stats2 := dset stats "hp" newHp
        .ok (setPlayer st pid { player with stats := stats2 },
             .damage pid newHp hp_max amount p.source)

/-- actions.py, apply_sanity_change. -/
def apply_sanity_change (st : WorldState) (p : Params) :
    Except ActionError (WorldState × StateDiff) :=
  match p.player_id with
  | none => .error (.missingParameter "player_id")
  | some pid =>
    match get_player st pid with
    | .error e => .error e
    | .ok player =>
      match p.amount with
      | none => .error (.missingParameter "amount")
      | some amount =>
        let stats := player.stats
        let current := dget stats "san" 0
        let san_max := dget stats "san_max" current
        let newSan := max 0 (min san_max (current + amount))
        let stats2 := dset stats "san" newSan
        .ok (setPlayer st pid { player with stats := stats2 },
             .sanity pid newSan san_max amount p.source)

/-- actions.py, update_player_attribute. -/
def update_player_attribute (st : WorldState) (p : Params) :
    Except ActionError (WorldState × StateDiff) :=
  match p.player_id with
  | none => .error (.missingParameter "player_id")
  | some pid =>
  match get_player st pid with
  | .error e => .error e
  | .ok player =>
  match p.attr with
  | none => .error (.missingParameter "attribute")
  | some a =>
  match p.delta with
  | none => .error (.missingParameter "delta")
  | some delta =>
  if strStartsWith a "skills." then
    let skill := strDrop a 7
    let v := dget player.skills skill 0 + delta
    let skills2 := dset player.skills skill v
    .ok (setPlayer st pid { player with skills := skills2 }, .skillUpdate pid skill v)
  else if dmem player.attributes a then
    let v := dget player.attributes a 0 + delta
    let attrs2 := dset player.attributes a v
    .ok (setPlayer st pid { player with attributes := attrs2 }, .attrUpdate pid a v)
  else if dmem player.stats a then
    let stats := player.stats
    let new0 := dget stats a 0 + delta
    if a = "hp" then
      let hp_max := dget stats "hp_max" new0
      let newv := max 0 (min hp_max new0)
      let stats2 := dset (dset stats "hp_max" hp_max) "hp" newv
      .ok (setPlayer st pid { player with stats := stats2 }, .statUpdate pid "hp" newv)
    else if a = "san" then
      let san_max := dget stats "san_max" new0
      let newv := max 0 (min san_max new0)
      let stats2 := dset (dset stats "san_max" san_max) "san" newv
      .ok (setPlayer st pid { player with stats := stats2 }, .statUpdate pid "san" newv)
    else if a = "hp_max" then
      let newv := max 1 new0
      let stats2 := dset stats "hp_max" newv
      let stats3 := dset stats2 "hp" (min (dget stats2 "hp" newv) newv)
      let stats4 := dset stats3 "hp_max" newv
      .ok (setPlayer st pid { player with stats := stats4 }, .statUpdate pid "hp_max" newv)
    else if a = "san_max" then
      let newv := max 1 new0
      let stats2 := dset stats "san_max" newv
      let stats3 := dset stats2 "san" (min (dget stats2 "san" newv) newv)
      let stats4 := dset stats3 "san_max" newv
      .ok (setPlayer st pid { player with stats := stats4 }, .statUpdate pid "san_max" newv)
    else
      let stats2 := dset stats a new0
      .ok (setPlayer st pid { player with stats := stats2 }, .statUpdate pid a new0)
  else .error (.unknownAttribute a)

/-- actions.py, add_status: set-like insertion. -/
def add_status (st : WorldState) (p : Params) :
    Except ActionError (WorldState × StateDiff) :=
  match p.player_id with
  | none => .error (.missingParameter "player_id")
  | some pid =>
  match get_player st pid with
  | .error e => .error e
  | .ok player =>
  match p.status with
  | none => .error (.missingParameter "status")
  | some status =>
    let statuses2 :=
      if status ∈ player.statuses then player.statuses else player.statuses ++ [status]
    .ok (setPlayer st pid { player with statuses := statuses2 }, .statusList pid statuses2)

/-- actions.py, remove_status: removes the first occurrence when
present. -/
def remove_status (st : WorldState) (p : Params) :
    Except ActionError (WorldState × StateDiff) :=
  match p.player_id with
  | none => .error (.missingParameter "player_id")
  | some pid =>
  match get_player st pid with
  | .error e => .error e
  | .ok player =>
  match p.status with
  | none => .error (.missingParameter "status")
  | some status =>
    let statuses2 :=
      if status ∈ player.statuses then player.statuses.erase status else player.statuses
    .ok (setPlayer st pid { player with statuses := statuses2 }, .statusList pid statuses2)

/-- actions.py, add_item. -/
def add_item (st : WorldState) (p : Params) :
    Except ActionError (WorldState × StateDiff) :=
  match p.player_id with
  | none => .error (.missingParameter "player_id")
  | some pid =>
  match get_player st pid with
  | .error e => .error e
  | .ok player =>
    let incoming := extract_entries p.item p.items p
    let items2 := merge_findings player.items incoming
    .ok (setPlayer st pid { player with items := items2 }, .itemList pid items2)

/-- actions.py, add_clue. -/
def add_clue (st : WorldState) (p : Params) :
    Except ActionError (WorldState × StateDiff) :=
  match p.player_id with
  | none => .error (.missingParameter "player_id")
  | some pid =>
  match get_player st pid with
  | .error e => .error e
  | .ok player =>
    let incoming := extract_entries p.clue p.clues p
    let clues2 := merge_findings player.clues incoming
    .ok (setPlayer st pid { player with clues := clues2 }, .clueList pid clues2)

/-- The required success level for a requested difficulty tier
(dispatch_action, the difficulty mapping with its dict-get default). -/
def requiredLevel (difficulty : String) : String :=
  if difficulty = "regular" then "regular_success"
  else if difficulty = "hard" then "hard_success"
  else if difficulty = "extreme" then "extreme_success"
  else "regular_success"

/-- The is_success computation of the roll_dice branch. -/
def computeIsSuccess (required level : String) : Bool :=
  (level = "critical" || level = "extreme_success" ||
   level = "hard_success" || level = "regular_success") &&
  (required = "regular_success" ||
   (required = "hard_success" &&
    (level = "hard_success" || level = "extreme_success" || level = "critical")) ||
   (required = "extreme_success" &&
    (level = "extreme_success" || level = "critical")))

/-- actions.py, dispatch_action: the single dispatcher entry point. -/
def dispatch_action (fn : String) (p : Params) (st : WorldState) (r : Rng) :
    Except ActionError (WorldState × StateDiff × Rng) :=
  if fn = "roll_dice" then
    match p.target with
    | some target =>
      let (res, r2) := roll_coc_check target (p.bonus_dice.getD 0) (p.penalty_dice.getD 0) r
      let difficulty := p.difficulty.getD "regular"
      let isSucc := computeIsSuccess (requiredLevel difficulty) res.success_level
      let res2 := { res with difficulty := some difficulty }
      .ok (st, .diceRoll res2 isSucc p.reason p.actor_id p.skill_name, r2)
    | none =>
      match p.dice_expression with
      | none => .error (.missingParameter "dice_expression")
      | some expr =>
        match roll_dice_expression expr r with
        | .error e => .error (.diceError e)
        | .ok (res, r2) => .ok (st, .diceExpr res p.reason p.actor_id, r2)
  else if fn = "oppose_check" then
    let att := p.attacker.getD {}
    let de := p.defender.getD {}
    let (a_roll, r2) :=
      roll_coc_check (att.target.getD 0) (att.bonus_dice.getD 0) (att.penalty_dice.getD 0) r
    let (b_roll, r3) :=
      roll_coc_check (de.target.getD 0) (de.bonus_dice.getD 0) (de.penalty_dice.getD 0) r2
    let a2 := { a_roll with difficulty := some (att.difficulty.getD "regular"),
                            skill_name := att.skill_name }
    let b2 := { b_roll with difficulty := some (de.difficulty.getD "regular"),
                            skill_name := de.skill_name }
    let winner := compare_opposed
      { success_level := a2.success_level, target := a2.target, total := a2.total }
      { success_level := b2.success_level, target := b2.target, total := b2.total }
    .ok (st, .opposed a2 b2 winner p.reason p.actor_id, r3)
  else if fn = "apply_damage" then
    match apply_damage st p with
    | .error e => .error e
    | .ok (st2, d) => .ok (st2, d, r)
  else if fn = "apply_sanity_change" then
    match apply_sanity_change st p with
    | .error e => .error e
    | .ok (st2, d) => .ok (st2, d, r)
  else if fn = "update_player_attribute" then
    match update_player_attribute st p with
    | .error e => .error e
    | .ok (st2, d) => .ok (st2, d, r)
  else if fn = "add_item" then
    match add_item st p with
    | .error e => .error e
    | .ok (st2, d) => .ok (st2, d, r)
  else if fn = "add_clue" then
    match add_clue st p with
    | .error e => .error e
    | .ok (st2, d) => .ok (st2, d, r)
  else if fn = "add_status" then
    match add_status st p with
    | .error e => .error e
    | .ok (st2, d) => .ok (st2, d, r)
  else if fn = "remove_status" then
    match remove_status st p with
    | .error e => .error e
    | .ok (st2, d) => .ok (st2, d, r)
  else .error (.unknownAction fn)

/-- The function_name values the pydantic ActionCall schema accepts
(models.py, the Literal annotation): add_item and add_clue are absent
from it. -/
def actionCallFunctionNames : List String :=
  ["roll_dice", "apply_damage", "apply_sanity_change", "update_player_attribute",
   "add_status", "remove_status", "oppose_check", "end_module"]

/-- The kinds the dispatcher recognizes (the if-chain of
dispatch_action): end_module is absent, add_item and add_clue are
present. -/
def dispatcherFunctionNames : List String :=
  ["roll_dice", "oppose_check", "apply_damage", "apply_sanity_change",
   "update_player_attribute", "add_item", "add_clue", "add_status", "remove_status"]

/-- The ten operation kinds named by the specification for ActionCall. -/
def specFunctionNames : List String :=
  ["roll_dice", "apply_damage", "apply_sanity_change", "update_player_attribute",
   "add_status", "remove_status", "add_item", "add_clue", "oppose_check", "end_module"]

/-! ### Visibility filter (visibility.py)

For filter_state a player record is a Python dict whose keys may be
absent, so each field is an Option; the stats value is itself a dict. -/

structure PRecordV where
  player_id : Option String := none
  name : Option String := none
  color : Option String := none
  stats : Option (List (String × Int)) := none
  attributes : Option (List (String × Int)) := none
  skills : Option (List (String × Int)) := none
  statuses : Option (List String) := none
  items : Option (List Finding) := none
  clues : Option (List Finding) := none
deriving DecidableEq

/-- The literal stats dict the non-owner summary carries: exactly the
keys hp, hp_max, san, san_max (values may be missing in the source and
then come through as none). -/
structure SummaryStats where
  hp : Option Int
  hp_max : Option Int
  san : Option Int
  san_max : Option Int
deriving DecidableEq

/-- The literal summary dict built for a non-owner viewer: exactly the
keys player_id, name, color, stats. No skills, items, clues, statuses
or attributes slot exists in this record. -/
structure SummaryRecord where
  player_id : Option String
  name : Option String
  color : Option String
  stats : SummaryStats
deriving DecidableEq

/-- A player entry of the filtered state: either the raw record (host
viewer or the record owner) or the reduced summary. -/
inductive ViewRecord where
  | full (p : PRecordV)
  | summary (s : SummaryRecord)
deriving DecidableEq

/-- The state snapshot seen by filter_state: the players mapping plus
the other top-level keys, which it copies through untouched. -/
structure VState where
  players : List (String × PRecordV) := []
  npcs : List (String × String) := []
  notes : List (String × String) := []
deriving DecidableEq

structure VStateFiltered where
  players : List (String × ViewRecord)
  npcs : List (String × String)
  notes : List (String × String)
deriving DecidableEq

def optOr {α : Type} (a b : Option α) : Option α :=
  match a with
  | some v => some v
  | none => b

/-- The summary built for a non-owner (visibility.py, filter_state else
branch): player_id falls back to the mapping key, hp_max and san_max
fall back to hp and san. -/
def summarize_player (pid : String) (p : PRecordV) : SummaryRecord :=
  let st := p.stats.getD []
  { player_id := some (p.player_id.getD pid),
    name := p.name,
    color := p.color,
    stats := { hp := dlookup st "hp",
               hp_max := optOr (dlookup st "hp_max") (dlookup st "hp"),
               san := dlookup st "san",
               san_max := optOr (dlookup st "san_max") (dlookup st "san") } }

/-- visibility.py, filter_state. -/
def filter_state (state : VState) (viewer_id viewer_role : String) : VStateFiltered :=
  if viewer_role = "host" then
    { players := state.players.map (fun pr => (pr.1, ViewRecord.full pr.2)),
      npcs := state.npcs, notes := state.notes }
  else
    { players := state.players.map (fun pr =>
        if pr.1 = viewer_id then (pr.1, ViewRecord.full pr.2)
        else (pr.1, ViewRecord.summary (summarize_player pr.1 pr.2))),
      npcs := state.npcs, notes := state.notes }

/-! ### Keeper output validation (keeper_validation.py) and the
orchestrator handling of keeper output (session.py,
SessionManager.handle_keeper_output). -/

inductive MsgType where
  | public
  | secret
  | system
deriving DecidableEq

structure I18NText where
  zh : Option String := none
  en : Option String := none
deriving DecidableEq

/-- An action call as the keeper emits it: a kind name plus the open
parameter mapping. The pydantic schema restriction is tracked
separately by actionCallFunctionNames. -/
structure ActionCallM where
  function_name : String
  parameters : Params
deriving DecidableEq

structure KeeperOutputM where
  message_type : MsgType
  visible_to : List String
  content : Option I18NText
  actions : List ActionCallM := []
  notes : Option String := none
deriving DecidableEq

/-- keeper_validation.py, validate_keeper_output. The isinstance int
checks cannot fail in this typed embedding (amount and delta slots are
integers when present), so only the presence checks appear. -/
def validate_keeper_output (output : KeeperOutputM) : List String :=
  let errors : List String := []
  let errors := errors ++
    (if output.message_type = MsgType.public ∧ output.visible_to ≠ ["all"] then
      ["public message must have visible_to = [all]"] else [])
  let errors := errors ++
    (if output.message_type = MsgType.secret ∧ output.visible_to = [] then
      ["secret message must have visible_to"] else [])
  let errors := errors ++
    (if output.message_type = MsgType.secret ∧ "all" ∈ output.visible_to then
      ["secret message cannot include all in visible_to"] else [])
  let errors := errors ++
    (if output.message_type = MsgType.system ∧ output.visible_to = [] then
      ["system message must have visible_to"] else [])
  let errors := errors ++
    (if output.content = none then ["content is required"] else [])
  let errors := errors ++ output.actions.flatMap (fun action =>
    let perAction : List String := []
    let perAction := perAction ++
      (if (action.function_name = "apply_damage" ∨
           action.function_name = "apply_sanity_change") ∧
          action.parameters.amount = none then
        [action.function_name ++ " requires amount"] else [])
    let perAction := perAction ++
      (if action.function_name = "update_player_attribute" ∧
          action.parameters.delta = none then
        ["update_player_attribute requires delta"] else [])
    let perAction := perAction ++
      (if action.function_name = "end_module" ∧
          (action.parameters.ending_id = none ∨ action.parameters.description = none) then
        ["end_module requires ending_id and description"] else [])
    perAction)
  errors

/-- A recorded history entry, restricted to the fields the claims
read. The state_diff dict becomes the validation_errors and diff
slots. -/
structure EntryM where
  actor_type : String
  actor_id : String
  action_type : String
  message_type : MsgType
  visible_to : List String
  content : Option I18NText
  actions : List ActionCallM := []
  validation_errors : List String := []
  diff : Option StateDiff := none
deriving DecidableEq

/-- The single system entry recorded when validation fails
(session.py, handle_keeper_output error branch). -/
def invalidOutputEntry (errors : List String) : EntryM :=
  { actor_type := "system", actor_id := "system",
    action_type := "rule_resolution", message_type := MsgType.system,
    visible_to := ["all"],
    content := some { zh := some "Keeper 输出无效，已忽略。",
                      en := some "Keeper output invalid and ignored." },
    validation_errors := errors }

/-- session.py, maybe_add_death_or_madness: on a 0-hp or 0-san player
not yet tagged, append the dead or insane status and emit one public
keeper narration. Returns the entry (if any) and the updated state. -/
def maybe_add_death_or_madness (p : Params) (st : WorldState) :
    Option EntryM × WorldState :=
  match p.player_id with
  | none => (none, st)
  | some pid =>
    match dlookup st.players pid with
    | none => (none, st)
    | some player =>
      let hp := dget player.stats "hp" 1
      let san := dget player.stats "san" 1
      if hp > 0 ∧ san > 0 then (none, st)
      else if hp ≤ 0 then
        if "dead" ∈ player.statuses then (none, st)
        else
          let st2 := setPlayer st pid { player with statuses := player.statuses ++ ["dead"] }
          (some { actor_type := "keeper", actor_id := "keeper",
                  action_type := "keeper_narration", message_type := MsgType.public,
                  visible_to := ["all"], content := some {} }, st2)
      else
        if "insane" ∈ player.statuses then (none, st)
        else
          let st2 := setPlayer st pid { player with statuses := player.statuses ++ ["insane"] }
          (some { actor_type := "keeper", actor_id := "keeper",
                  action_type := "keeper_narration", message_type := MsgType.public,
                  visible_to := ["all"], content := some {} }, st2)

/-- session.py, end_session restricted to its state effect and entry:
phase flips to ended and one public rule_resolution entry is recorded.
The conditions text resolved from the module catalog is not
claim-relevant and is omitted from the entry. -/
def end_session_entry (_ending_id _description : String) (st : WorldState) :
    EntryM × WorldState :=
  ({ actor_type := "system", actor_id := "system",
     action_type := "rule_resolution", message_type := MsgType.public,
     visible_to := ["all"], content := some {} },
   { st with phase := some "ended" })

/-- session.py, apply_actions: iterate the embedded actions,
intercepting end_module (routed to session termination) and running
every other kind through the dispatcher, recording one entry per
action plus any death or madness narration. A dispatcher error
propagates as an exception. The nested forced-ending oracle turn
inside this loop is an external oracle call and is modeled at the
predicate level (should_force_ending) instead. -/
def apply_actions (actions : List ActionCallM) (st : WorldState) (r : Rng) :
    Except ActionError (List EntryM × WorldState × Rng) :=
  match actions with
  | [] => .ok ([], st, r)
  | a :: rest =>
    if a.function_name = "end_module" then
      let ending_id := (a.parameters.ending_id).getD ""
      let description := (a.parameters.description).getD ""
      let (entry, st2) := end_session_entry ending_id description st
      match apply_actions rest st2 r with
      | .error e => .error e
      | .ok (es, st3, r3) => .ok (entry :: es, st3, r3)
    else
      match dispatch_action a.function_name a.parameters st r with
      | .error e => .error e
      | .ok (st2, diff, r2) =>
        let action_type :=
          if a.function_name = "roll_dice" ∨ a.function_name = "oppose_check" then
            "dice_roll" else "state_update"
        let entry : EntryM :=
          { actor_type := "system", actor_id := "system",
            action_type := action_type, message_type := MsgType.system,
            visible_to := ["all"], content := some {},
            actions := [a], diff := some diff }
        let (deathEntry, st3) := maybe_add_death_or_madness a.parameters st2
        match apply_actions rest st3 r2 with
        | .error e => .error e
        | .ok (es, st4, r4) =>
          .ok (entry :: ((match deathEntry with | some d => [d] | none => []) ++ es), st4, r4)

/-- session.py, handle_keeper_output: normalize a public message to
visible_to = [all], validate, abort on any error with one system
entry, otherwise record the narration and apply the embedded
actions. -/
def handle_keeper_output (output : KeeperOutputM) (st : WorldState) (r : Rng) :
    Except ActionError (List EntryM × WorldState × Rng) :=
  let output2 :=
    if output.message_type = MsgType.public then { output with visible_to := ["all"] }
    else output
  let errors := validate_keeper_output output2
  if errors ≠ [] then
    .ok ([invalidOutputEntry errors], st, r)
  else
    let narration : EntryM :=
      { actor_type := "keeper", actor_id := "keeper",
        action_type := "keeper_narration", message_type := output2.message_type,
        visible_to := output2.visible_to, content := output2.content,
        actions := output2.actions }
    if output2.actions ≠ [] then
      match apply_actions output2.actions st r with
      | .error e => .error e
      | .ok (es, st2, r2) => .ok (narration :: es, st2, r2)
    else
      .ok ([narration], st, r)

/-! ### Forced-ending check (session.py, all_players_inactive and
should_force_ending). -/

/-- The candidate list all_players_inactive examines: the tracked
players, restricted by the player_id field to the online ids when a
nonempty online-ids list is given (Python truthiness: an empty or
absent list skips the filter). -/
def inactiveCandidates (st : WorldState) (online_ids : Option (List String)) :
    List Player :=
  match online_ids with
  | some ids =>
    if ids = [] then st.players.map Prod.snd
    else (st.players.map Prod.snd).filter
      (fun p => (p.player_id.map (fun x => ids.contains x)).getD false)
  | none => st.players.map Prod.snd

/-- session.py, all_players_inactive: False on an empty candidate
list, else every candidate must be dead or insane. -/
def all_players_inactive (st : WorldState) (online_ids : Option (List String)) : Bool :=
  let ps := inactiveCandidates st online_ids
  if ps = [] then false
  else ps.all (fun p => !(dget p.stats "hp" 1 > 0 ∧ dget p.stats "san" 1 > 0 : Bool))

/-- session.py, should_force_ending. -/
def should_force_ending (st : WorldState) (actions : Option (List ActionCallM))
    (online_ids : Option (List String)) : Bool :=
  if st.phase = some "ended" then false
  else if st.ending_forced then false
  else if (actions.getD []).any (fun a => a.function_name = "end_module") then false
  else all_players_inactive st online_ids

/-- The eligible set exactly as the claim words it: the players in the
provided online-ids list when one is provided, all tracked players
otherwise. Modelled from the spec for comparison with the code. -/
def claimEligible (st : WorldState) (online_ids : Option (List String)) : List Player :=
  match online_ids with
  | some ids =>
    (st.players.map Prod.snd).filter
      (fun p => (p.player_id.map (fun x => ids.contains x)).getD false)
  | none => st.players.map Prod.snd

/-- The forced-ending condition exactly as the claim words it.
Modelled from the spec for comparison with the code. -/
def claimForceCondition (st : WorldState) (actions : Option (List ActionCallM))
    (online_ids : Option (List String)) : Bool :=
  (claimEligible st online_ids).all
    (fun p => dget p.stats "hp" 1 ≤ 0 || dget p.stats "san" 1 ≤ 0) &&
  !(st.phase = some "ended" : Bool) &&
  !st.ending_forced &&
  !((actions.getD []).any (fun a => a.function_name = "end_module"))

/-! ### Lobby capacity (session.py, SessionManager.add_player). -/

structure SessionPlayer where
  player_id : String
  name : String
  role : String
  color : String
deriving DecidableEq

/-- The slice of a PlayerProfile that add_player consumes, with the
pydantic stat defaults. -/
structure PlayerProfileM where
  player_id : String
  name : String
  gender : String := ""
  color : String
  profession : String := ""
  stats : List (String × Int) :=
    [("hp", 10), ("hp_max", 10), ("san", 60), ("san_max", 60), ("mp", 10), ("luck", 50)]
  attributes : List (String × Int) :=
    [("str", 50), ("dex", 50), ("int", 50), ("con", 50),
     ("app", 50), ("pow", 50), ("siz", 50), ("edu", 50)]
  skills : List (String × Int) := []
  statuses : List String := []
deriving DecidableEq

/-- The profile dump stored into the world state and player store. -/
def profileData (profile : PlayerProfileM) : Player :=
  { player_id := some profile.player_id, name := some profile.name,
    color := some profile.color, stats := profile.stats,
    attributes := profile.attributes, skills := profile.skills,
    statuses := profile.statuses }

/-- The session slice add_player touches: the session player list, the
world state, and the upserts issued to the player store. -/
structure SessionModel where
  players : List SessionPlayer
  current_state : WorldState
  store_player_writes : List (String × Player) := []
deriving DecidableEq

/-- session.py, add_player: reject at 12 or more players before any
write, otherwise upsert the player record and append to both the
session player list and the world-state players mapping. -/
def add_player (s : SessionModel) (profile : PlayerProfileM) (role : String) :
    Except String SessionModel :=
  if s.players.length ≥ 12 then
    .error "Room is full (max 12 players)"
  else
    let data := profileData profile
    .ok { players := s.players ++
            [{ player_id := profile.player_id, name := profile.name,
               role := role, color := profile.color }],
          current_state := { s.current_state with
            players := dset s.current_state.players profile.player_id data },
          store_player_writes := s.store_player_writes ++ [(profile.player_id, data)] }

/-! ### Theorems -/

theorem dlookup_dset_ne {α : Type} (d : List (String × α)) (k k2 : String) (v : α)
    (h : k ≠ k2) : dlookup (dset d k v) k2 = dlookup d k2 := by
  induction d with
  | nil => simp [dset, dlookup, h]
  | cons hd t ih =>
    obtain ⟨k3, v3⟩ := hd
    by_cases hk : k3 = k
    · subst hk
      simp [dset, dlookup, h]
    · simp [dset, dlookup, hk, ih]

/-- The lexicographic reading of the opposed comparison: attacker wins
exactly when the attacker key (rank, target, total) is lexicographically
greater. -/
theorem compare_opposed_attacker_iff (a b : OpposedPayload) :
    compare_opposed a b = "attacker" ↔
      (success_rank a.success_level > success_rank b.success_level ∨
       (success_rank a.success_level = success_rank b.success_level ∧
        a.target > b.target) ∨
       (success_rank a.success_level = success_rank b.success_level ∧
        a.target = b.target ∧ a.total > b.total)) := by
  unfold compare_opposed
  split_ifs with h1 h2 h3 h4 h5 h6 <;>
    first
      | exact iff_of_true rfl (by omega)
      | exact iff_of_false (by decide) (by omega)

theorem compare_opposed_defender_iff (a b : OpposedPayload) :
    compare_opposed a b = "defender" ↔
      (success_rank b.success_level > success_rank a.success_level ∨
       (success_rank b.success_level = success_rank a.success_level ∧
        b.target > a.target) ∨
       (success_rank b.success_level = success_rank a.success_level ∧
        b.target = a.target ∧ b.total > a.total)) := by
  unfold compare_opposed
  split_ifs with h1 h2 h3 h4 h5 h6 <;>
    first
      | exact iff_of_true rfl (by omega)
      | exact iff_of_false (by decide) (by omega)

theorem compare_opposed_tie_iff (a b : OpposedPayload) :
    compare_opposed a b = "tie" ↔
      (success_rank a.success_level = success_rank b.success_level ∧
       a.target = b.target ∧ a.total = b.total) := by
  unfold compare_opposed
  split_ifs with h1 h2 h3 h4 h5 h6 <;>
    first
      | exact iff_of_true rfl (by omega)
      | exact iff_of_false (by decide) (by omega)

/-- Claim C8: the opposed-check comparison is a total order: the winner
is decided first by success-level rank, then by raw target value, then
by raw roll total; the result is a tie exactly when all three agree;
the outcome is always one of attacker, defender or tie; for non-tied
outcomes exactly one side wins (swapping the payloads swaps the
winner); and the winning relation is transitive. -/
theorem opposed_check_total_order (a b c : OpposedPayload) :
    (compare_opposed a b = "attacker" ↔
      (success_rank a.success_level > success_rank b.success_level ∨
       (success_rank a.success_level = success_rank b.success_level ∧
        a.target > b.target) ∨
       (success_rank a.success_level = success_rank b.success_level ∧
        a.target = b.target ∧ a.total > b.total))) ∧
    (compare_opposed a b = "tie" ↔
      (success_rank a.success_level = success_rank b.success_level ∧
       a.target = b.target ∧ a.total = b.total)) ∧
    (compare_opposed a b = "attacker" ∨ compare_opposed a b = "defender" ∨
     compare_opposed a b = "tie") ∧
    (compare_opposed a b = "attacker" ↔ compare_opposed b a = "defender") ∧
    (compare_opposed a b = "attacker" → compare_opposed b c = "attacker" →
     compare_opposed a c = "attacker") := by
  refine ⟨compare_opposed_attacker_iff a b, compare_opposed_tie_iff a b, ?_, ?_, ?_⟩
  · unfold compare_opposed
    split_ifs <;> simp
  · rw [compare_opposed_attacker_iff, compare_opposed_defender_iff]
  · rw [compare_opposed_attacker_iff a b, compare_opposed_attacker_iff b c,
      compare_opposed_attacker_iff a c]
    omega

def opposedWitnessA : OpposedPayload :=
  { success_level := "critical", target := 50, total := 3 }

def opposedWitnessB : OpposedPayload :=
  { success_level := "hard_success", target := 50, total := 10 }

def opposedWitnessC : OpposedPayload :=
  { success_level := "failure", target := 60, total := 70 }

/-- Witness for claim C8 at concrete payloads: the transitivity
hypotheses hold and the conclusion follows from the theorem. -/
theorem opposed_check_total_order_witness :
    compare_opposed opposedWitnessA opposedWitnessC = "attacker" :=
  (opposed_check_total_order opposedWitnessA opposedWitnessB opposedWitnessC).2.2.2.2
    (by decide) (by decide)

/-! ### Claim C6: percentile check totals and the success table -/

theorem composeTotal_range (ct u : Nat) (hct : ct ≤ 9) (hu : u ≤ 9) :
    1 ≤ composeTotal ct u ∧ composeTotal ct u ≤ 100 := by
  unfold composeTotal
  split_ifs with h
  · omega
  · constructor <;> [skip; skip] <;> push_cast <;> omega

theorem chooseTens_le_nine (net : Int) (l : List Nat) (hne : l ≠ [])
    (hb : ∀ x ∈ l, x ≤ 9) : chooseTens net l ≤ 9 := by
  unfold chooseTens
  split_ifs
  · exact listMin_le_nine l hne hb
  · exact listMax_le_nine l hb

/-- The success-level table of the claim, read off the sequential
if-chain of coc_success_level, with each guard carrying the negations
of the earlier rows. -/
theorem coc_success_level_table (roll target : Int) :
    (roll = 1 → coc_success_level roll target = "critical") ∧
    (roll ≠ 1 → ((target < 50 ∧ 96 ≤ roll) ∨ (50 ≤ target ∧ roll = 100)) →
      coc_success_level roll target = "fumble") ∧
    (roll ≠ 1 → ¬((target < 50 ∧ 96 ≤ roll) ∨ (50 ≤ target ∧ roll = 100)) →
      roll ≤ max 1 (target / 5) → coc_success_level roll target = "extreme_success") ∧
    (roll ≠ 1 → ¬((target < 50 ∧ 96 ≤ roll) ∨ (50 ≤ target ∧ roll = 100)) →
      ¬(roll ≤ max 1 (target / 5)) → roll ≤ max 1 (target / 2) →
      coc_success_level roll target = "hard_success") ∧
    (roll ≠ 1 → ¬((target < 50 ∧ 96 ≤ roll) ∨ (50 ≤ target ∧ roll = 100)) →
      ¬(roll ≤ max 1 (target / 5)) → ¬(roll ≤ max 1 (target / 2)) → roll ≤ target →
      coc_success_level roll target = "regular_success") ∧
    (roll ≠ 1 → ¬((target < 50 ∧ 96 ≤ roll) ∨ (50 ≤ target ∧ roll = 100)) →
      ¬(roll ≤ max 1 (target / 5)) → ¬(roll ≤ max 1 (target / 2)) → ¬(roll ≤ target) →
      coc_success_level roll target = "failure") := by
  unfold coc_success_level
  refine ⟨?_, ?_, ?_, ?_, ?_, ?_⟩ <;>
    · intros
      split_ifs <;> first | rfl | omega

/-- The property claim C6 asserts about one percentile-check result:
the total lies in [1, 100] and the success level follows the table. -/
def cocCheckClaim (target : Int) (res : CocResult) : Prop :=
  1 ≤ res.total ∧ res.total ≤ 100 ∧
  (res.total = 1 → res.success_level = "critical") ∧
  (res.total ≠ 1 → ((target < 50 ∧ 96 ≤ res.total) ∨ (50 ≤ target ∧ res.total = 100)) →
    res.success_level = "fumble") ∧
  (res.total ≠ 1 → ¬((target < 50 ∧ 96 ≤ res.total) ∨ (50 ≤ target ∧ res.total = 100)) →
    res.total ≤ max 1 (target / 5) → res.success_level = "extreme_success") ∧
  (res.total ≠ 1 → ¬((target < 50 ∧ 96 ≤ res.total) ∨ (50 ≤ target ∧ res.total = 100)) →
    ¬(res.total ≤ max 1 (target / 5)) → res.total ≤ max 1 (target / 2) →
    res.success_level = "hard_success") ∧
  (res.total ≠ 1 → ¬((target < 50 ∧ 96 ≤ res.total) ∨ (50 ≤ target ∧ res.total = 100)) →
    ¬(res.total ≤ max 1 (target / 5)) → ¬(res.total ≤ max 1 (target / 2)) →
    res.total ≤ target → res.success_level = "regular_success") ∧
  (res.total ≠ 1 → ¬((target < 50 ∧ 96 ≤ res.total) ∨ (50 ≤ target ∧ res.total = 100)) →
    ¬(res.total ≤ max 1 (target / 5)) → ¬(res.total ≤ max 1 (target / 2)) →
    ¬(res.total ≤ target) → res.success_level = "failure")

/-- Claim C6: for every target in [1, 100] and all possible random
draws (all bonus and penalty dice counts, all streams), the percentile
check total lies in [1, 100] — a 00 tens/unit combination maps to 100,
never 0 — and the success level follows the claimed table. -/
theorem percentile_check_spec (target bonus penalty : Int) (r : Rng)
    (ht1 : 1 ≤ target) (ht2 : target ≤ 100) :
    cocCheckClaim target (roll_coc_check target bonus penalty r).1 := by
  have hu : (r.next 0 9).1 ≤ 9 := (Rng.next_le r 0 9 (by omega)).2
  have hlen := drawList_length (1 + (max 0 bonus - max 0 penalty).natAbs) 0 9 (r.next 0 9).2
  have hlne : (drawList (1 + (max 0 bonus - max 0 penalty).natAbs) 0 9 (r.next 0 9).2).1 ≠ [] := by
    intro hnil
    rw [hnil] at hlen
    simp only [List.length_nil] at hlen
    omega
  have hlb : ∀ x ∈ (drawList (1 + (max 0 bonus - max 0 penalty).natAbs) 0 9 (r.next 0 9).2).1,
      x ≤ 9 := by
    intro x hx
    exact (drawList_mem_le _ 0 9 _ (by omega) x hx).2
  have hct : chooseTens (max 0 bonus - max 0 penalty)
      (drawList (1 + (max 0 bonus - max 0 penalty).natAbs) 0 9 (r.next 0 9).2).1 ≤ 9 :=
    chooseTens_le_nine _ _ hlne hlb
  have htot : (roll_coc_check target bonus penalty r).1.total =
      composeTotal (chooseTens (max 0 bonus - max 0 penalty)
        (drawList (1 + (max 0 bonus - max 0 penalty).natAbs) 0 9 (r.next 0 9).2).1)
        (r.next 0 9).1 := rfl
  have hsl : (roll_coc_check target bonus penalty r).1.success_level =
      coc_success_level (roll_coc_check target bonus penalty r).1.total target := rfl
  have hrange := composeTotal_range _ _ hct hu
  obtain ⟨t1, t2, t3, t4, t5, t6⟩ :=
    coc_success_level_table (roll_coc_check target bonus penalty r).1.total target
  rw [← htot] at hrange
  refine ⟨hrange.1, hrange.2, ?_, ?_, ?_, ?_, ?_, ?_⟩ <;> rw [hsl]
  · exact t1
  · exact t2
  · exact t3
  · exact t4
  · exact t5
  · exact t6

/-- Witness for claim C6 at a concrete target and stream. -/
theorem percentile_check_spec_witness :
    cocCheckClaim 50 (roll_coc_check 50 0 0 ⟨[3, 4]⟩).1 :=
  percentile_check_spec 50 0 0 ⟨[3, 4]⟩ (by decide) (by decide)

/-! ### Claim C4: damage and sanity clamping -/

/-- Claim C4: for a player whose stats satisfy 0 ≤ hp ≤ hp_max and
0 ≤ san ≤ san_max and every integer amount, apply_damage sets hp to
hp − amount clamped to [0, hp_max] and apply_sanity_change sets san to
san + amount clamped to [0, san_max]; the clamped values stay inside
the bounds; the diff reports the updated stat pair plus the
last_damage/last_sanity audit record (amount, source); and
apply_damage with amount 0 returns the state unchanged. -/
theorem apply_damage_sanity_spec (st : WorldState) (pid : String) (player : Player)
    (amount : Int) (p : Params) (hpv hmv sanv smv : Int)
    (hplayer : dlookup st.players pid = some player)
    (hpid : p.player_id = some pid)
    (hamount : p.amount = some amount)
    (hhp : dlookup player.stats "hp" = some hpv)
    (hhm : dlookup player.stats "hp_max" = some hmv)
    (hsan : dlookup player.stats "san" = some sanv)
    (hsm : dlookup player.stats "san_max" = some smv)
    (hhp0 : 0 ≤ hpv) (hhp1 : hpv ≤ hmv) (hsan0 : 0 ≤ sanv) (hsan1 : sanv ≤ smv) :
    (apply_damage st p =
      .ok (setPlayer st pid
             { player with stats := dset player.stats "hp" (max 0 (min hmv (hpv - amount))) },
           .damage pid (max 0 (min hmv (hpv - amount))) hmv amount p.source)) ∧
    (0 ≤ max 0 (min hmv (hpv - amount)) ∧ max 0 (min hmv (hpv - amount)) ≤ hmv) ∧
    (apply_sanity_change st p =
      .ok (setPlayer st pid
             { player with stats := dset player.stats "san" (max 0 (min smv (sanv + amount))) },
           .sanity pid (max 0 (min smv (sanv + amount))) smv amount p.source)) ∧
    (0 ≤ max 0 (min smv (sanv + amount)) ∧ max 0 (min smv (sanv + amount)) ≤ smv) ∧
    (amount = 0 → apply_damage st p = .ok (st, .damage pid hpv hmv 0 p.source)) := by
  have hdmg : apply_damage st p =
      .ok (setPlayer st pid
             { player with stats := dset player.stats "hp" (max 0 (min hmv (hpv - amount))) },
           .damage pid (max 0 (min hmv (hpv - amount))) hmv amount p.source) := by
    simp only [apply_damage, hpid, get_player, hplayer, hamount, dget, hhp, hhm,
      Option.getD_some]
  refine ⟨hdmg, ⟨by omega, by omega⟩, ?_, ⟨by omega, by omega⟩, ?_⟩
  · simp only [apply_sanity_change, hpid, get_player, hplayer, hamount, dget, hsan, hsm,
      Option.getD_some]
  · intro h0
    subst h0
    have hv : max 0 (min hmv (hpv - 0)) = hpv := by omega
    rw [hdmg, hv]
    have hstats : dset player.stats "hp" hpv = player.stats := dset_eq_self _ _ _ hhp
    rw [hstats]
    have hpl : ({ player with stats := player.stats } : Player) = player := rfl
    rw [hpl]
    have hst : setPlayer st pid player = st := by
      unfold setPlayer
      rw [dset_eq_self _ _ _ hplayer]
    rw [hst]

def damageWitnessPlayer : Player :=
  { stats := [("hp", 8), ("hp_max", 10), ("san", 40), ("san_max", 60)] }

def damageWitnessState : WorldState :=
  { players := [("p1", damageWitnessPlayer)] }

def damageWitnessParams : Params :=
  { player_id := some "p1", amount := some 3, source := some "ghoul" }

/-- Witness for claim C4 at a concrete player and amount. -/
theorem apply_damage_sanity_spec_witness :
    apply_damage damageWitnessState damageWitnessParams =
      .ok (setPlayer damageWitnessState "p1"
             { damageWitnessPlayer with
                stats := dset damageWitnessPlayer.stats "hp" (max 0 (min 10 (8 - 3))) },
           .damage "p1" (max 0 (min 10 (8 - 3))) 10 3 (some "ghoul")) :=
  (apply_damage_sanity_spec damageWitnessState "p1" damageWitnessPlayer 3
    damageWitnessParams 8 10 40 60 (by decide) (by decide) (by decide) (by decide)
    (by decide) (by decide) (by decide) (by decide) (by decide) (by decide)
    (by decide)).1

/-! ### Claim C10: lobby capacity of add_player -/

/-- Claim C10: add_player enforces a session capacity of 12. With 12
or more entries in the session player list it fails with an error
before any write; below the cap it appends the player to the session
player list, writes the profile into the world-state players mapping,
and issues exactly one player-store upsert. -/
theorem add_player_capacity (s : SessionModel) (profile : PlayerProfileM)
    (role : String) :
    (s.players.length ≥ 12 →
      add_player s profile role = .error "Room is full (max 12 players)") ∧
    (s.players.length < 12 →
      add_player s profile role =
        .ok { players := s.players ++
                [{ player_id := profile.player_id, name := profile.name,
                   role := role, color := profile.color }],
              current_state := { s.current_state with
                players := dset s.current_state.players profile.player_id
                  (profileData profile) },
              store_player_writes := s.store_player_writes ++
                [(profile.player_id, profileData profile)] } ∧
      ∀ s2, add_player s profile role = .ok s2 →
        dlookup s2.current_state.players profile.player_id =
          some (profileData profile) ∧
        s2.players.length = s.players.length + 1) := by
  constructor
  · intro h
    simp only [add_player, if_pos h]
  · intro h
    have hno : ¬(s.players.length ≥ 12) := by omega
    constructor
    · simp only [add_player, if_neg hno]
    · intro s2 hs2
      simp only [add_player, if_neg hno, Except.ok.injEq] at hs2
      subst hs2
      refine ⟨dlookup_dset_self _ _ _, by simp⟩

def capacityWitnessSession : SessionModel :=
  { players := [], current_state := {} }

def capacityWitnessProfile : PlayerProfileM :=
  { player_id := "p1", name := "Alice", color := "#ff0000" }

/-- Witness for claim C10: adding to an empty lobby succeeds and lands
in both the session list and the world state. -/
theorem add_player_capacity_witness :
    add_player capacityWitnessSession capacityWitnessProfile "player" =
      .ok { players := [{ player_id := "p1", name := "Alice",
                          role := "player", color := "#ff0000" }],
            current_state := { capacityWitnessSession.current_state with
              players := dset capacityWitnessSession.current_state.players "p1"
                (profileData capacityWitnessProfile) },
            store_player_writes := [("p1", profileData capacityWitnessProfile)] } :=
  by
    have h := (add_player_capacity capacityWitnessSession capacityWitnessProfile
      "player").2 (by decide)
    simpa using h.1

/-! ### Claim C5: attribute addressing of update_player_attribute -/

/-- Claim C5: update_player_attribute resolves the attribute name in
priority order. A skills.name attribute updates that skill, creating
it at 0 on first use, with no clamp; otherwise a pre-existing core
attribute is updated with no clamp; otherwise a stat present in the
stats dict is updated, where hp and san clamp into [0, current max],
hp_max and san_max floor at 1 and re-clamp the paired current value
downward, and any other present stat gets no clamp; any other name
fails with UnknownAttribute, leaving the player unchanged. -/
theorem update_player_attribute_spec (st : WorldState) (pid : String)
    (player : Player) (a : String) (delta : Int) (p : Params)
    (hplayer : dlookup st.players pid = some player)
    (hpid : p.player_id = some pid)
    (hattr : p.attr = some a)
    (hdelta : p.delta = some delta) :
    (strStartsWith a "skills." = true →
      update_player_attribute st p =
        .ok (setPlayer st pid { player with
               skills := dset player.skills (strDrop a 7)
                 (dget player.skills (strDrop a 7) 0 + delta) },
             .skillUpdate pid (strDrop a 7) (dget player.skills (strDrop a 7) 0 + delta))) ∧
    (strStartsWith a "skills." = false → dmem player.attributes a = true →
      update_player_attribute st p =
        .ok (setPlayer st pid { player with
               attributes := dset player.attributes a (dget player.attributes a 0 + delta) },
             .attrUpdate pid a (dget player.attributes a 0 + delta))) ∧
    (a = "hp" → dmem player.attributes "hp" = false →
      ∀ hv hm, dlookup player.stats "hp" = some hv →
        dlookup player.stats "hp_max" = some hm →
        update_player_attribute st p =
          .ok (setPlayer st pid { player with
                 stats := dset (dset player.stats "hp_max" hm) "hp"
                   (max 0 (min hm (hv + delta))) },
               .statUpdate pid "hp" (max 0 (min hm (hv + delta))))) ∧
    (a = "san" → dmem player.attributes "san" = false →
      ∀ sv sm, dlookup player.stats "san" = some sv →
        dlookup player.stats "san_max" = some sm →
        update_player_attribute st p =
          .ok (setPlayer st pid { player with
                 stats := dset (dset player.stats "san_max" sm) "san"
                   (max 0 (min sm (sv + delta))) },
               .statUpdate pid "san" (max 0 (min sm (sv + delta))))) ∧
    (a = "hp_max" → dmem player.attributes "hp_max" = false →
      ∀ hv hm, dlookup player.stats "hp" = some hv →
        dlookup player.stats "hp_max" = some hm →
        ∃ player2,
          update_player_attribute st p =
            .ok (setPlayer st pid player2, .statUpdate pid "hp_max" (max 1 (hm + delta))) ∧
          dlookup player2.stats "hp_max" = some (max 1 (hm + delta)) ∧
          dlookup player2.stats "hp" = some (min hv (max 1 (hm + delta))) ∧
          min hv (max 1 (hm + delta)) ≤ max 1 (hm + delta)) ∧
    (a = "san_max" → dmem player.attributes "san_max" = false →
      ∀ sv sm, dlookup player.stats "san" = some sv →
        dlookup player.stats "san_max" = some sm →
        ∃ player2,
          update_player_attribute st p =
            .ok (setPlayer st pid player2, .statUpdate pid "san_max" (max 1 (sm + delta))) ∧
          dlookup player2.stats "san_max" = some (max 1 (sm + delta)) ∧
          dlookup player2.stats "san" = some (min sv (max 1 (sm + delta))) ∧
          min sv (max 1 (sm + delta)) ≤ max 1 (sm + delta)) ∧
    (a ≠ "hp" → a ≠ "san" → a ≠ "hp_max" → a ≠ "san_max" →
      strStartsWith a "skills." = false → dmem player.attributes a = false →
      ∀ v, dlookup player.stats a = some v →
      update_player_attribute st p =
        .ok (setPlayer st pid { player with stats := dset player.stats a (v + delta) },
             .statUpdate pid a (v + delta))) ∧
    (strStartsWith a "skills." = false → dmem player.attributes a = false →
      dmem player.stats a = false →
      update_player_attribute st p = .error (.unknownAttribute a)) := by
  refine ⟨?_, ?_, ?_, ?_, ?_, ?_, ?_, ?_⟩
  · intro hsk
    simp only [update_player_attribute, hpid, get_player, hplayer, hattr, hdelta, hsk,
      if_true, dget]
  · intro hsk hmem
    simp only [update_player_attribute, hpid, get_player, hplayer, hattr, hdelta, hsk,
      hmem, Bool.false_eq_true, if_false, if_true, dget]
  · intro ha hmem hv hm hhv hhm
    subst ha
    have hsk : strStartsWith "hp" "skills." = false := by decide
    have hstat : dmem player.stats "hp" = true := by
      simp [dmem, hhv]
    simp only [update_player_attribute, hpid, get_player, hplayer, hattr, hdelta, hsk,
      hmem, hstat, Bool.false_eq_true, if_false, if_true, dget, hhv, hhm,
      Option.getD_some, if_pos rfl]
  · intro ha hmem sv sm hsv hsm
    subst ha
    have hsk : strStartsWith "san" "skills." = false := by decide
    have hstat : dmem player.stats "san" = true := by
      simp [dmem, hsv]
    simp only [update_player_attribute, hpid, get_player, hplayer, hattr, hdelta, hsk,
      hmem, hstat, Bool.false_eq_true, if_false, if_true, dget, hsv, hsm,
      Option.getD_some, if_pos rfl]
    have hne : ("san" : String) ≠ "hp" := by decide
    simp [hne]
  · intro ha hmem hv hm hhv hhm
    subst ha
    have hsk : strStartsWith "hp_max" "skills." = false := by decide
    have hstat : dmem player.stats "hp_max" = true := by
      simp [dmem, hhm]
    refine ⟨{ player with
      stats := dset (dset (dset player.stats "hp_max" (max 1 (hm + delta))) "hp"
        (min hv (max 1 (hm + delta)))) "hp_max" (max 1 (hm + delta)) }, ?_, ?_, ?_, ?_⟩
    · have hget : dget (dset player.stats "hp_max" (max 1 (hm + delta))) "hp"
          (max 1 (hm + delta)) = hv := by
        rw [dget, dlookup_dset_ne _ _ _ _ (by decide), hhv, Option.getD_some]
      simp only [update_player_attribute, hpid, get_player, hplayer, hattr, hdelta, hsk,
        hmem, hstat, Bool.false_eq_true, if_false, if_true, dget, hhm, Option.getD_some]
      have hne1 : ("hp_max" : String) ≠ "hp" := by decide
      have hne2 : ("hp_max" : String) ≠ "san" := by decide
      simp only [hne1, hne2, if_false, if_pos rfl, reduceIte]
      simp [dlookup_dset_ne _ _ _ _ (by decide : ("hp_max" : String) ≠ "hp"), hhv]
    · rw [dlookup_dset_self]
    · rw [dlookup_dset_ne _ _ _ _ (by decide : ("hp_max" : String) ≠ "hp"),
        dlookup_dset_self]
    · omega
  · intro ha hmem sv sm hsv hsm
    subst ha
    have hsk : strStartsWith "san_max" "skills." = false := by decide
    have hstat : dmem player.stats "san_max" = true := by
      simp [dmem, hsm]
    refine ⟨{ player with
      stats := dset (dset (dset player.stats "san_max" (max 1 (sm + delta))) "san"
        (min sv (max 1 (sm + delta)))) "san_max" (max 1 (sm + delta)) }, ?_, ?_, ?_, ?_⟩
    · simp only [update_player_attribute, hpid, get_player, hplayer, hattr, hdelta, hsk,
        hmem, hstat, Bool.false_eq_true, if_false, if_true, dget, hsm, Option.getD_some]
      have hne1 : ("san_max" : String) ≠ "hp" := by decide
      have hne2 : ("san_max" : String) ≠ "san" := by decide
      have hne3 : ("san_max" : String) ≠ "hp_max" := by decide
      simp only [hne1, hne2, hne3, if_false, if_pos rfl, reduceIte]
      simp [dlookup_dset_ne _ _ _ _ (by decide : ("san_max" : String) ≠ "san"), hsv]
    · rw [dlookup_dset_self]
    · rw [dlookup_dset_ne _ _ _ _ (by decide : ("san_max" : String) ≠ "san"),
        dlookup_dset_self]
    · omega
  · intro h1 h2 h3 h4 hsk hmem v hvv
    have hstat : dmem player.stats a = true := by
      simp [dmem, hvv]
    simp only [update_player_attribute, hpid, get_player, hplayer, hattr, hdelta, hsk,
      hmem, hstat, Bool.false_eq_true, if_false, if_true, dget, hvv, Option.getD_some,
      h1, h2, h3, h4, reduceIte]
  · intro hsk hmem hstat
    simp only [update_player_attribute, hpid, get_player, hplayer, hattr, hdelta, hsk,
      hmem, hstat, Bool.false_eq_true, if_false]

/-- Witness for claim C5: an hp update with clamping at a concrete
player. -/
theorem update_player_attribute_spec_witness :
    update_player_attribute damageWitnessState
      { player_id := some "p1", attr := some "hp", delta := some 5 } =
      .ok (setPlayer damageWitnessState "p1"
             { damageWitnessPlayer with
                stats := dset (dset damageWitnessPlayer.stats "hp_max" 10) "hp"
                  (max 0 (min 10 (8 + 5))) },
           .statUpdate "p1" "hp" (max 0 (min 10 (8 + 5)))) :=
  (update_player_attribute_spec damageWitnessState "p1" damageWitnessPlayer "hp" 5
    { player_id := some "p1", attr := some "hp", delta := some 5 }
    (by decide) rfl rfl rfl).2.2.1 rfl (by decide) 8 10 (by decide) (by decide)

/-! ### Claim C7: dice-expression parsing -/

theorem isDChar_not_digit (c : Char) (h : isDChar c = true) : c.isDigit = false := by
  have h2 : c = 'd' ∨ c = 'D' := by
    simpa [isDChar] using h
  rcases h2 with h2 | h2 <;> subst h2 <;> decide

theorem digit_not_isDChar (c : Char) (h : c.isDigit = true) : isDChar c = false := by
  by_contra hne
  have := isDChar_not_digit c (by revert hne; cases isDChar c <;> simp)
  rw [h] at this
  cases this

theorem spanDigits_cons_digit (c : Char) (t : List Char) (h : c.isDigit = true) :
    spanDigits (c :: t) = (c :: (spanDigits t).1, (spanDigits t).2) := by
  simp [spanDigits, h]

theorem spanDigits_cons_nondigit (c : Char) (t : List Char) (h : c.isDigit = false) :
    spanDigits (c :: t) = ([], c :: t) := by
  simp [spanDigits, h]

theorem spanDigits_fst_nil_iff (c : Char) (t : List Char) :
    (spanDigits (c :: t)).1 = [] ↔ c.isDigit = false := by
  by_cases h : c.isDigit
  · simp [spanDigits_cons_digit c t h, h]
  · simp [spanDigits_cons_nondigit c t (by simpa using h)]
    simpa using h

theorem matchDiceAt_cons_nondigit (c : Char) (t : List Char) (h : c.isDigit = false) :
    matchDiceAt (c :: t) = none := by
  simp [matchDiceAt, spanDigits_cons_nondigit c t h]

theorem matchDiceAt_nil : matchDiceAt [] = none := by
  simp [matchDiceAt, spanDigits]

/-- Shifting into a digit run does not change acceptance: the pattern
matches at a digit position exactly when it matches starting one digit
later. -/
theorem matchDiceAt_shift (a b : Char) (t : List Char)
    (ha : a.isDigit = true) (hb : b.isDigit = true) :
    (matchDiceAt (a :: b :: t)).isSome = (matchDiceAt (b :: t)).isSome := by
  simp only [matchDiceAt, spanDigits_cons_digit a (b :: t) ha,
    spanDigits_cons_digit b t hb]
  cases hm : matchAfterDigits (spanDigits t).2 <;> simp [hm]

/-- A digit, the letter d, and a digit at the head always match. -/
theorem matchDiceAt_front (a b c : Char) (t : List Char)
    (ha : a.isDigit = true) (hb : isDChar b = true) (hc : c.isDigit = true) :
    (matchDiceAt (a :: b :: c :: t)).isSome = true := by
  have hbd : b.isDigit = false := isDChar_not_digit b hb
  simp [matchDiceAt, spanDigits_cons_digit a _ ha, spanDigits_cons_nondigit b _ hbd,
    matchAfterDigits, hb, spanDigits_cons_digit c t hc]

theorem matchDiceAt_single (a : Char) : matchDiceAt [a] = none := by
  by_cases h : a.isDigit
  · simp [matchDiceAt, spanDigits, h, matchAfterDigits]
  · exact matchDiceAt_cons_nondigit a [] (by simpa using h)

theorem matchDiceAt_pair (a b : Char) : matchDiceAt [a, b] = none := by
  by_cases ha : a.isDigit
  · by_cases hb : b.isDigit
    · simp [matchDiceAt, spanDigits, ha, hb, matchAfterDigits]
    · by_cases hd : isDChar b
      · simp [matchDiceAt, spanDigits, ha, (by simpa using hb : b.isDigit = false),
          matchAfterDigits, hd]
      · simp [matchDiceAt, spanDigits, ha, (by simpa using hb : b.isDigit = false),
          matchAfterDigits, hd]
  · exact matchDiceAt_cons_nondigit a [b] (by simpa using ha)

theorem findDice_cons (a : Char) (t : List Char) :
    (findDice (a :: t)).isSome =
      ((matchDiceAt (a :: t)).isSome || (findDice t).isSome) := by
  cases hm : matchDiceAt (a :: t) <;> simp [findDice, hm]

/-- The search accepts a string exactly when it contains a digit, the
letter d, and a digit in three consecutive positions. -/
theorem findDice_isSome_iff (cs : List Char) :
    (findDice cs).isSome = containsDdd cs := by
  induction cs with
  | nil => simp [findDice, containsDdd]
  | cons a t ih =>
    rw [findDice_cons]
    match t with
    | [] =>
      simp [matchDiceAt_single, findDice, containsDdd]
    | [b] =>
      simp [matchDiceAt_pair, findDice_cons, matchDiceAt_single, findDice, containsDdd]
    | b :: c :: rest =>
      simp only [containsDdd, ← ih]
      by_cases ha : a.isDigit
      · by_cases hb : b.isDigit
        · rw [matchDiceAt_shift a b (c :: rest) ha hb, digit_not_isDChar b hb,
            findDice_cons b (c :: rest)]
          cases hx : (matchDiceAt (b :: c :: rest)).isSome <;> simp [hx, ha]
        · have hbd : b.isDigit = false := by simpa using hb
          by_cases hdb : isDChar b
          · by_cases hc : c.isDigit
            · simp [matchDiceAt_front a b c rest ha hdb hc, ha, hdb, hc]
            · have hcd : c.isDigit = false := by simpa using hc
              have hnone : (matchDiceAt (a :: b :: c :: rest)).isSome = false := by
                simp [matchDiceAt, spanDigits_cons_digit a _ ha,
                  spanDigits_cons_nondigit b _ hbd, matchAfterDigits, hdb,
                  spanDigits_cons_nondigit c rest hcd]
              simp [hnone, hcd]
          · have hnone : (matchDiceAt (a :: b :: c :: rest)).isSome = false := by
              simp [matchDiceAt, spanDigits_cons_digit a _ ha,
                spanDigits_cons_nondigit b _ hbd, matchAfterDigits, hdb]
            simp [hnone, hdb]
      · have had : a.isDigit = false := by simpa using ha
        simp [matchDiceAt_cons_nondigit a _ had, had]

theorem rollDice_error_empty (count sides : Nat) (r : Rng) (e : RollError)
    (h : rollDice count sides r = .error e) : e = .emptyRange := by
  induction count generalizing r with
  | zero => simp [rollDice] at h
  | succ m ih =>
    simp only [rollDice] at h
    by_cases hs : sides = 0
    · rw [if_pos hs] at h
      cases h
      rfl
    · rw [if_neg hs] at h
      cases hr : rollDice m sides (r.next 1 sides).2 with
      | error e2 =>
        rw [hr] at h
        cases h
        exact ih _ hr
      | ok val =>
        rw [hr] at h
        cases h

/-- Every roll of a positive-sided die lands in [1, sides]. -/
theorem rollDice_spec (count sides : Nat) (r : Rng) (hs : 1 ≤ sides) :
    ∃ rolls r2, rollDice count sides r = .ok (rolls, r2) ∧
      rolls.length = count ∧ ∀ x ∈ rolls, 1 ≤ x ∧ x ≤ sides := by
  induction count generalizing r with
  | zero => exact ⟨[], r, rfl, rfl, by simp⟩
  | succ m ih =>
    obtain ⟨rolls, r2, heq, hlen, hmem⟩ := ih (r.next 1 sides).2
    refine ⟨(r.next 1 sides).1 :: rolls, r2, ?_, by simp [hlen], ?_⟩
    · simp only [rollDice]
      rw [if_neg (by omega)]
      rw [heq]
    · intro x hx
      rcases List.mem_cons.mp hx with hx | hx
      · subst hx
        exact Rng.next_le r 1 sides hs
      · exact hmem x hx

/-- The property claim C7 asserts of roll_dice_expression after the
correction: acceptance is substring search, not a full match. -/
def rollDiceExprClaim (expr : String) (r : Rng) : Prop :=
  (roll_dice_expression expr r = .error .invalidExpression ↔
    containsDdd (expr.toList.filter (fun c => c ≠ Char.ofNat 32)) = false) ∧
  (∀ count sides modifier,
    findDice (expr.toList.filter (fun c => c ≠ Char.ofNat 32)) =
      some (count, sides, modifier) →
    1 ≤ sides →
    ∃ res r2, roll_dice_expression expr r = .ok (res, r2) ∧
      res.rolls.length = count ∧ (∀ x ∈ res.rolls, 1 ≤ x ∧ x ≤ sides) ∧
      res.modifier = modifier ∧ res.total = (res.rolls.sum : Int) + modifier)

/-- Claim C7 (amended): roll_dice_expression fails with
InvalidExpression exactly when the space-stripped input contains no
digit-d-digit substring (re.search, not a full match); when the
leftmost match has positive sides, it rolls count dice each in
[1, sides] and totals their sum plus the modifier; and the input abc
always fails with InvalidExpression. -/
theorem roll_dice_expression_spec (expr : String) (r : Rng) :
    rollDiceExprClaim expr r ∧
    roll_dice_expression "abc" r = .error .invalidExpression := by
  constructor
  · constructor
    · rw [← findDice_isSome_iff]
      cases hf : findDice (expr.toList.filter (fun c => c ≠ Char.ofNat 32)) with
      | none =>
        simp only [roll_dice_expression, hf]
        simp
      | some v =>
        obtain ⟨count, sides, modifier⟩ := v
        refine iff_of_false ?_ (by simp [hf])
        simp only [roll_dice_expression, hf]
        cases hr : rollDice count sides r with
        | error e =>
          have he : e = .emptyRange := rollDice_error_empty count sides r e hr
          subst he
          simp
        | ok res =>
          obtain ⟨rolls, r2⟩ := res
          simp
    · intro count sides modifier hf hs
      obtain ⟨rolls, r2, heq, hlen, hmem⟩ := rollDice_spec count sides r hs
      refine ⟨{ expression := expr, rolls := rolls, modifier := modifier,
                total := (rolls.sum : Int) + modifier }, r2, ?_, hlen, hmem, rfl, rfl⟩
      simp only [roll_dice_expression, hf, heq]
  · rfl

def c7Counterexample : String := "abc1d6"

/-- Projection of a dice-expression outcome for concrete evaluation. -/
def exprOutcome (e : Except RollError (DiceExprResult × Rng)) : Option DiceExprResult :=
  match e with
  | .ok (res, _) => some res
  | .error _ => none

/-- Counterexample for claim C7 as stated: the input abc1d6 is not of
the claimed exact form count d sides with optional modifier, yet the
code accepts it, because the regex is applied with re.search. -/
theorem roll_dice_expression_counterexample :
    specDiceFormat c7Counterexample = false ∧
    specDiceFormat "1d6" = true ∧
    exprOutcome (roll_dice_expression c7Counterexample ⟨[2]⟩) =
      some { expression := c7Counterexample, rolls := [3], modifier := 0,
             total := 3 } := by
  refine ⟨by decide, by decide, by decide⟩

/-! ### Claim C1: per-viewer state redaction -/

/-- Claim C1: filter_state returns the raw state for a host viewer.
For any non-host viewer the viewer record passes through unchanged,
every other player appears as the summary record carrying exactly
player_id, name, color and the four stat values (with the key and
current-stat fallbacks), and every entry for a player other than the
viewer is a summary — a record type with no skills, items, clues,
statuses or attributes slot — so those fields never appear. -/
theorem filter_state_spec (state : VState) (vid role : String) :
    (role = "host" →
      filter_state state vid role =
        { players := state.players.map (fun pr => (pr.1, ViewRecord.full pr.2)),
          npcs := state.npcs, notes := state.notes }) ∧
    (role ≠ "host" →
      (filter_state state vid role).npcs = state.npcs ∧
      (filter_state state vid role).notes = state.notes ∧
      (∀ pid p, (pid, p) ∈ state.players → pid = vid →
        (pid, ViewRecord.full p) ∈ (filter_state state vid role).players) ∧
      (∀ pid p, (pid, p) ∈ state.players → pid ≠ vid →
        (pid, ViewRecord.summary
          { player_id := some (p.player_id.getD pid),
            name := p.name, color := p.color,
            stats := { hp := dlookup (p.stats.getD []) "hp",
                       hp_max := optOr (dlookup (p.stats.getD []) "hp_max")
                                       (dlookup (p.stats.getD []) "hp"),
                       san := dlookup (p.stats.getD []) "san",
                       san_max := optOr (dlookup (p.stats.getD []) "san_max")
                                        (dlookup (p.stats.getD []) "san") } }) ∈
          (filter_state state vid role).players) ∧
      (∀ pid v, (pid, v) ∈ (filter_state state vid role).players → pid ≠ vid →
        ∃ s, v = ViewRecord.summary s)) := by
  constructor
  · intro h
    simp [filter_state, h]
  · intro h
    refine ⟨by simp [filter_state, h], by simp [filter_state, h], ?_, ?_, ?_⟩
    · intro pid p hmem hpid
      simp only [filter_state, if_neg h]
      refine List.mem_map.mpr ⟨(pid, p), hmem, ?_⟩
      simp [hpid]
    · intro pid p hmem hpid
      simp only [filter_state, if_neg h]
      refine List.mem_map.mpr ⟨(pid, p), hmem, ?_⟩
      simp only [hpid, if_neg hpid, reduceIte]
      rfl
    · intro pid v hv hpid
      simp only [filter_state, if_neg h] at hv
      obtain ⟨⟨pid2, p⟩, hmem, heq⟩ := List.mem_map.mp hv
      by_cases h2 : pid2 = vid
      · rw [if_pos h2] at heq
        have he1 : pid2 = pid := congrArg Prod.fst heq
        exact absurd (he1.symm.trans h2) hpid
      · rw [if_neg h2] at heq
        exact ⟨summarize_player pid2 p, (congrArg Prod.snd heq).symm⟩

def visWitnessOwn : PRecordV :=
  { player_id := some "p1", name := some "Alice", color := some "#f00",
    stats := some [("hp", 5), ("hp_max", 9), ("san", 30), ("san_max", 60)],
    skills := some [("Spot Hidden", 60)], items := some [{ description := "key" }] }

def visWitnessOther : PRecordV :=
  { player_id := some "p2", name := some "Bob", color := some "#0f0",
    stats := some [("hp", 7), ("hp_max", 10)],
    clues := some [{ description := "note" }], statuses := some ["injured"] }

def visWitnessState : VState :=
  { players := [("p1", visWitnessOwn), ("p2", visWitnessOther)] }

/-- Witness for claim C1: the non-host view of a concrete state keeps
the viewer record and summarizes the other player. -/
theorem filter_state_spec_witness :
    ("p2", ViewRecord.summary
      { player_id := some (visWitnessOther.player_id.getD "p2"),
        name := visWitnessOther.name, color := visWitnessOther.color,
        stats := { hp := dlookup (visWitnessOther.stats.getD []) "hp",
                   hp_max := optOr (dlookup (visWitnessOther.stats.getD []) "hp_max")
                                   (dlookup (visWitnessOther.stats.getD []) "hp"),
                   san := dlookup (visWitnessOther.stats.getD []) "san",
                   san_max := optOr (dlookup (visWitnessOther.stats.getD []) "san_max")
                                    (dlookup (visWitnessOther.stats.getD []) "san") } }) ∈
      (filter_state visWitnessState "p1" "player").players :=
  ((filter_state_spec visWitnessState "p1" "player").2 (by decide)).2.2.2.1
    "p2" visWitnessOther (by decide) (by decide)

/-! ### Claim C2: structural validation aborts the narration -/

/-- Projection of a keeper-output handling result to its final state. -/
def handleState (e : Except ActionError (List EntryM × WorldState × Rng)) :
    Option WorldState :=
  match e with
  | .ok (_, st, _) => some st
  | .error _ => none

/-- Claim C2 (amended): for a keeper output that is secret with empty
visible_to or with all in visible_to, or system with empty visible_to,
or has null content, the orchestrator aborts the narration: exactly
one system entry visible to all is recorded, none of the embedded
actions is applied, and the world state and random source are
unchanged. A public message is normalized to visible_to = [all] before
validation and thus never aborts on the visible_to rule. -/
theorem keeper_output_structural_abort (output : KeeperOutputM) (st : WorldState)
    (r : Rng)
    (h : (output.message_type = MsgType.secret ∧
            (output.visible_to = [] ∨ "all" ∈ output.visible_to)) ∨
         (output.message_type = MsgType.system ∧ output.visible_to = []) ∨
         output.content = none) :
    ∃ errors, errors ≠ [] ∧
      handle_keeper_output output st r = .ok ([invalidOutputEntry errors], st, r) ∧
      (invalidOutputEntry errors).message_type = MsgType.system ∧
      (invalidOutputEntry errors).visible_to = ["all"] ∧
      (invalidOutputEntry errors).validation_errors = errors := by
  set o2 := if output.message_type = MsgType.public then
      { output with visible_to := ["all"] } else output with ho2
  have hct : o2.content = output.content := by
    rw [ho2]; split_ifs <;> rfl
  have hvt : output.message_type ≠ MsgType.public → o2 = output := by
    intro hne2
    rw [ho2, if_neg hne2]
  have hne : validate_keeper_output o2 ≠ [] := by
    rcases h with ⟨hsec, hv⟩ | ⟨hsys, hv⟩ | hcont
    · have ho : o2 = output := hvt (by rw [hsec]; intro hx; cases hx)
      rcases hv with hv | hv
      · intro hnil
        simp [validate_keeper_output, ho, hsec, hv] at hnil
      · by_cases hv0 : output.visible_to = []
        · intro hnil
          simp [validate_keeper_output, ho, hsec, hv0] at hnil
        · intro hnil
          simp [validate_keeper_output, ho, hsec, hv, hv0] at hnil
    · have ho : o2 = output := hvt (by rw [hsys]; intro hx; cases hx)
      intro hnil
      simp [validate_keeper_output, ho, hsys, hv] at hnil
    · intro hnil
      simp [validate_keeper_output, hct, hcont] at hnil
  refine ⟨validate_keeper_output o2, hne, ?_, rfl, rfl, rfl⟩
  simp only [handle_keeper_output, ← ho2]
  rw [if_pos hne]

def abortWitnessOutput : KeeperOutputM :=
  { message_type := MsgType.secret, visible_to := [],
    content := some { zh := some "x" },
    actions := [{ function_name := "apply_damage",
                  parameters := { player_id := some "p1", amount := some 2 } }] }

/-- Witness for claim C2 at a concrete invalid secret output. -/
theorem keeper_output_structural_abort_witness :
    ∃ errors, errors ≠ [] ∧
      handle_keeper_output abortWitnessOutput { players := [] } ⟨[]⟩ =
        .ok ([invalidOutputEntry errors], { players := [] }, ⟨[]⟩) ∧
      (invalidOutputEntry errors).message_type = MsgType.system ∧
      (invalidOutputEntry errors).visible_to = ["all"] ∧
      (invalidOutputEntry errors).validation_errors = errors :=
  keeper_output_structural_abort abortWitnessOutput { players := [] } ⟨[]⟩
    (Or.inl ⟨rfl, Or.inl rfl⟩)

def cexKeeperOutput : KeeperOutputM :=
  { message_type := MsgType.public, visible_to := ["p1"],
    content := some { zh := some "x" },
    actions := [{ function_name := "apply_damage",
                  parameters := { player_id := some "p1", amount := some 3 } }] }

def cexKeeperState : WorldState :=
  { players := [("p1",
      { player_id := some "p1",
        stats := [("hp", 10), ("hp_max", 10), ("san", 50), ("san_max", 50)] })] }

/-- Counterexample for claim C2 as stated: a public keeper output
whose visible_to differs from [all] is NOT aborted — the orchestrator
normalizes visible_to before validating, the embedded damage action is
applied, and the world state changes. -/
theorem keeper_output_public_not_aborted :
    cexKeeperOutput.message_type = MsgType.public ∧
    cexKeeperOutput.visible_to ≠ ["all"] ∧
    cexKeeperOutput.content ≠ none ∧
    handleState (handle_keeper_output cexKeeperOutput cexKeeperState ⟨[]⟩) ≠ none ∧
    handleState (handle_keeper_output cexKeeperOutput cexKeeperState ⟨[]⟩) ≠
      some cexKeeperState := by
  refine ⟨rfl, by decide, by decide, by decide, by decide⟩

/-! ### Claim C3: the accepted action-kind sets -/

/-- Boolean success projection of a dispatch result. -/
def dispatchOk (e : Except ActionError (WorldState × StateDiff × Rng)) : Bool :=
  match e with
  | .ok _ => true
  | .error _ => false

def c3ItemParams : Params :=
  { player_id := some "p1", item := some (RawEntry.str "lantern") }

def c3State : WorldState :=
  { players := [("p1", { player_id := some "p1" })] }

/-- Claim C3, checked against the code: the specification names ten
kinds, but the pydantic schema Literal accepts only eight — add_item
and add_clue are missing from it even though the dispatcher implements
both — while end_module sits in the schema yet is unknown to the
dispatcher; and for every kind outside the dispatcher if-chain,
dispatch_action fails with UnknownAction, returning no new state. -/
theorem action_kind_enforcement :
    ("add_item" ∈ specFunctionNames ∧ "add_clue" ∈ specFunctionNames ∧
     "add_item" ∉ actionCallFunctionNames ∧ "add_clue" ∉ actionCallFunctionNames) ∧
    ("add_item" ∈ dispatcherFunctionNames ∧ "add_clue" ∈ dispatcherFunctionNames ∧
     "end_module" ∉ dispatcherFunctionNames ∧ "end_module" ∈ actionCallFunctionNames) ∧
    dispatchOk (dispatch_action "add_item" c3ItemParams c3State ⟨[]⟩) = true ∧
    (∀ fn p st r, fn ∉ dispatcherFunctionNames →
      dispatch_action fn p st r = .error (.unknownAction fn)) := by
  refine ⟨⟨by decide, by decide, by decide, by decide⟩,
          ⟨by decide, by decide, by decide, by decide⟩, by decide, ?_⟩
  intro fn p st r hfn
  simp only [dispatcherFunctionNames, List.mem_cons, List.not_mem_nil, or_false,
    not_or] at hfn
  obtain ⟨h1, h2, h3, h4, h5, h6, h7, h8, h9⟩ := hfn
  simp only [dispatch_action, h1, h2, h3, h4, h5, h6, h7, h8, h9, if_false, reduceIte]

/-- Witness for claim C3: end_module is rejected by the dispatcher. -/
theorem action_kind_enforcement_witness :
    dispatch_action "end_module" {} {} ⟨[]⟩ =
      .error (.unknownAction "end_module") :=
  action_kind_enforcement.2.2.2 "end_module" {} {} ⟨[]⟩ (by decide)

/-! ### Claim C9: the forced-ending condition -/

/-- Claim C9 (amended): the forced-ending predicate holds exactly when
the phase is not ended, no ending has been forced, no end_module is
among the actions of this turn, and the eligible candidate set is NONEMPTY
with every candidate dead or insane; the candidates are the tracked
players restricted by player_id to the online-ids list when a nonempty
one is provided, all tracked players otherwise (an empty provided list
also falls back to all tracked players). -/
theorem should_force_ending_iff (st : WorldState)
    (actions : Option (List ActionCallM)) (online_ids : Option (List String)) :
    should_force_ending st actions online_ids = true ↔
      (st.phase ≠ some "ended" ∧ st.ending_forced = false ∧
       (∀ a ∈ actions.getD [], a.function_name ≠ "end_module") ∧
       inactiveCandidates st online_ids ≠ [] ∧
       (∀ p ∈ inactiveCandidates st online_ids,
         dget p.stats "hp" 1 ≤ 0 ∨ dget p.stats "san" 1 ≤ 0)) := by
  unfold should_force_ending
  split_ifs with h1 h2 h3
  · exact iff_of_false (by simp) (by tauto)
  · refine iff_of_false (by simp) ?_
    intro hc
    exact absurd h2 (by simp [hc.2.1])
  · refine iff_of_false (by simp) ?_
    intro hc
    obtain ⟨a, hmem, ha⟩ := List.any_eq_true.mp h3
    exact hc.2.2.1 a hmem (by simpa using ha)
  · simp only [all_players_inactive]
    split_ifs with h4
    · refine iff_of_false (by simp) ?_
      intro hc
      exact hc.2.2.2.1 h4
    · rw [List.all_eq_true]
      constructor
      · intro hall
        refine ⟨h1, by simpa using h2, ?_, h4, ?_⟩
        · intro a hmem ha
          exact h3 (List.any_eq_true.mpr ⟨a, hmem, by simpa using ha⟩)
        · intro p hp
          have hthis := hall p hp
          simp only [Bool.not_eq_true', decide_eq_false_iff_not] at hthis
          omega
      · intro hc p hp
        have hthis := hc.2.2.2.2 p hp
        simp only [Bool.not_eq_true', decide_eq_false_iff_not]
        omega

def c9WitnessState : WorldState :=
  { players := [("p1",
      { player_id := some "p1", stats := [("hp", 0), ("san", 10)] })],
    phase := some "active" }

/-- Witness for claim C9 (amended) at a concrete dead player. -/
theorem should_force_ending_iff_witness :
    should_force_ending c9WitnessState none (some ["p1"]) = true :=
  (should_force_ending_iff c9WitnessState none (some ["p1"])).mpr
    ⟨by decide, rfl, by decide, by decide, by decide⟩

def c9State : WorldState :=
  { players := [("p1",
      { player_id := some "p1", stats := [("hp", 10), ("san", 10)] })],
    phase := some "active", ending_forced := false }

/-- Counterexample for claim C9 as stated: with one healthy tracked
player and a provided online-ids list matching nobody, the claimed
condition holds vacuously (every eligible player is inactive, the
phase is active, nothing was forced, no end_module), yet the code does
not force an ending — it returns False on an empty candidate list. -/
theorem should_force_ending_counterexample :
    claimForceCondition c9State none (some ["ghost"]) = true ∧
    should_force_ending c9State none (some ["ghost"]) = false := by
  refine ⟨by decide, by decide⟩

end OpenKeeper
